import Mathlib

/-!
# Verification of the drizzle-graphql dialect builders

Shallow embedding of the three dialect builders of the repository
(`src/src/Util/Builders/vanilla/pg.ts` and the two files concatenated in
`src/src/util/builders/mysql.ts`: the mysql builder and the sqlite builder).

Each generated resolver is embedded as a pure function from its arguments and an
explicit executor to a pair: the GraphQL-level outcome (`Except GQLError _`) and
the ordered list of queries actually dispatched to the executor.  Collaborator
modules that are not part of the two source files (`data-mappers`, the
`builders/common` helpers, `case-ops`) are modelled from the specification; each
such definition carries a doc comment starting `Modelled from the spec:`.
-/

namespace DG

/-- A scalar value flowing through the engine.  The claims under study are about
control flow, argument shapes and error behaviour, so a small closed value model
suffices. -/
inductive Value where
  | intV : Int → Value
  | strV : String → Value
  | boolV : Bool → Value
  | nullV : Value
deriving DecidableEq, Repr

/-- A row: field name to value, as produced or consumed by the executor. -/
abbrev Row := List (String × Value)

/-- A table column (only the name is relevant to the claims). -/
structure Column where
  name : String
deriving DecidableEq, Repr

/-- A table: name plus ordered column list (spec §3). -/
structure Table where
  name : String
  columns : List Column
deriving DecidableEq, Repr

/-- A GraphQL error carrying a message, as thrown via `new GraphQLError(msg)`. -/
structure GQLError where
  message : String
deriving DecidableEq, Repr

/-- A filter argument object (`where`), kept as raw field data: the claims below
depend only on whether and where a filter is attached, never on its compiled
content. -/
structure FilterInput where
  fields : List (String × Value)
deriving DecidableEq, Repr

/-- An order-by argument object. -/
structure OrderByInput where
  fields : List (String × Bool)
deriving DecidableEq, Repr

/-- A compiled predicate as handed to the executor. -/
structure Predicate where
  table : String
  filters : FilterInput
deriving DecidableEq, Repr

/-- Modelled from the spec: `extractFilters` (builders/common, not under src/)
compiles a filter input against a table into a native predicate (spec §4.2).
The claims below depend only on whether a predicate is attached, so the
compiled predicate records its source data. -/
def extractFilters (t : Table) (tableName : String) (f : FilterInput) : Predicate :=
  { table := tableName, filters := f }

/-- Modelled from the spec: `extractOrderBy` (builders/common, not under src/)
compiles a column-to-direction mapping into an ordered pair sequence, preserving
declaration order (spec §4.3). -/
def extractOrderBy (t : Table) (o : OrderByInput) : List (String × Bool) :=
  o.fields

/-- Modelled from the spec: `remapFromGraphQLSingleInput` (data-mappers, not
under src/) restricts a GraphQL input object to the table's declared columns,
deserializing each value (spec §4.1/§4.6); our value model carries storage
values directly, so deserialization is the identity. -/
def remapFromGraphQLSingleInput (input : List (String × Value)) (t : Table) :
    List (String × Value) :=
  input.filter (fun kv => t.columns.any (fun c => c.name == kv.1))

/-- Modelled from the spec: `remapFromGraphQLArrayInput` (data-mappers, not
under src/) remaps each element of a `values` list; an empty list stays empty. -/
def remapFromGraphQLArrayInput (values : List (List (String × Value))) (t : Table) :
    List (List (String × Value)) :=
  values.map (fun v => remapFromGraphQLSingleInput v t)

/-- Modelled from the spec: `remapToGraphQLSingleOutput` (data-mappers, not
under src/) passes scalar values through the primitive mapper's serialize step
(spec §4.6); our value model already holds serialized representations, so the
remap is the identity on scalar rows. -/
def remapToGraphQLSingleOutput (r : Row) : Row := r

/-- Modelled from the spec: `remapToGraphQLArrayOutput` remaps every row of an
array result. -/
def remapToGraphQLArrayOutput (rs : List Row) : List Row :=
  rs.map remapToGraphQLSingleOutput

/-- Modelled from the spec: selection pruning (`extractSelectedColumnsFromNode`
and the tree/SQL-format variants in builders/common, not under src/) returns
exactly the requested scalar columns of the table, falling back to a minimal
identity projection when none is requested (spec §4.4). -/
def extractSelectedColumns (requested : List String) (t : Table) : List String :=
  match t.columns.filter (fun c => requested.contains c.name) with
  | [] => ((t.columns.head?).map (fun c => [c.name])).getD []
  | cs => cs.map (fun c => c.name)

/-! ## Update resolvers (pg.ts lines 383-424, mysql.ts lines 260-307) -/

/-- An update statement as handed to the pg executor
(`db.update(table).set(input)[.where(filters)].returning(columns)`). -/
structure UpdateQuery where
  table : String
  setValues : List (String × Value)
  whereFilter : Option Predicate
  returningCols : List String
deriving DecidableEq, Repr

/-- The update statement shape of the mysql dialect (no `returning` clause). -/
structure MySqlUpdateQuery where
  table : String
  setValues : List (String × Value)
  whereFilter : Option Predicate
deriving DecidableEq, Repr

/-- Embeds the resolver returned by `generateUpdate` of pg.ts (lines 383-424):
remap `set` to the table's columns, reject an empty remapped field map before
building any statement, otherwise dispatch one update (with the compiled
`where` predicate when given) and remap the returned rows.  The second
component records the queries dispatched to the executor, in order. -/
def pgUpdateResolverRun (tableName : String) (table : Table)
    (selectedCols : List String)
    (execUpdate : UpdateQuery → Except String (List Row))
    (setArg : List (String × Value)) (whereArg : Option FilterInput) :
    Except GQLError (List Row) × List UpdateQuery :=
  let input := remapFromGraphQLSingleInput setArg table
  if input.isEmpty then
    (.error ⟨"Unable to update with no values specified!"⟩, [])
  else
    let q : UpdateQuery :=
      { table := tableName
        setValues := input
        whereFilter := whereArg.map (extractFilters table tableName)
        returningCols := selectedCols }
    match execUpdate q with
    | .ok rows => (.ok (remapToGraphQLArrayOutput rows), [q])
    | .error e => (.error ⟨e⟩, [q])

/-- Embeds the resolver returned by `generateUpdate` of the mysql builder
(mysql.ts lines 260-307): same validation, dispatch without `returning`,
result `{ isSuccess: true }` modelled as `true`; a thrown error is re-wrapped
as a `GraphQLError` carrying the same message (the catch block). -/
def mysqlUpdateResolverRun (tableName : String) (table : Table)
    (execUpdate : MySqlUpdateQuery → Except String Unit)
    (setArg : List (String × Value)) (whereArg : Option FilterInput) :
    Except GQLError Bool × List MySqlUpdateQuery :=
  let input := remapFromGraphQLSingleInput setArg table
  if input.isEmpty then
    (.error ⟨"Unable to update with no values specified!"⟩, [])
  else
    let q : MySqlUpdateQuery :=
      { table := tableName
        setValues := input
        whereFilter := whereArg.map (extractFilters table tableName) }
    match execUpdate q with
    | .ok _ => (.ok true, [q])
    | .error e => (.error ⟨e⟩, [q])

/-! ## Insert resolvers (pg.ts lines 322-381, mysql.ts lines 187-258,
sqlite part of mysql.ts lines 678-774) -/

/-- An insert statement as handed to the pg/sqlite executor
(`db.insert(table).values(input).returning(columns).onConflictDoNothing()`). -/
structure InsertQuery where
  table : String
  values : List Row
  returningCols : List String
  onConflictDoNothing : Bool
deriving DecidableEq, Repr

/-- The insert statement shape of the mysql dialect
(`db.insert(table).values(input)`: no returning, no conflict clause). -/
structure MySqlInsertQuery where
  table : String
  values : List Row
deriving DecidableEq, Repr

/-- Embeds the resolver returned by `generateInsertArray` of pg.ts (lines
322-350): remap the `values` list, reject an empty list before any dispatch,
otherwise dispatch one insert built with `onConflictDoNothing` and remap the
rows the executor returned. -/
def pgInsertArrayResolverRun (tableName : String) (table : Table)
    (selectedCols : List String)
    (execInsert : InsertQuery → Except String (List Row))
    (values : List (List (String × Value))) :
    Except GQLError (List Row) × List InsertQuery :=
  let input := remapFromGraphQLArrayInput values table
  if input.isEmpty then
    (.error ⟨"No values were provided!"⟩, [])
  else
    let q : InsertQuery :=
      { table := tableName
        values := input
        returningCols := selectedCols
        onConflictDoNothing := true }
    match execInsert q with
    | .ok rows => (.ok (remapToGraphQLArrayOutput rows), [q])
    | .error e => (.error ⟨e⟩, [q])

/-- Embeds the resolver returned by `generateInsertSingle` of pg.ts (lines
352-381): dispatch one single-row insert built with `onConflictDoNothing`;
when the executor returns no row (`!result[0]`), return an absent result. -/
def pgInsertSingleResolverRun (tableName : String) (table : Table)
    (selectedCols : List String)
    (execInsert : InsertQuery → Except String (List Row))
    (value : List (String × Value)) :
    Except GQLError (Option Row) × List InsertQuery :=
  let input := remapFromGraphQLSingleInput value table
  let q : InsertQuery :=
    { table := tableName
      values := [input]
      returningCols := selectedCols
      onConflictDoNothing := true }
  match execInsert q with
  | .ok rows =>
    match rows.head? with
    | none => (.ok none, [q])
    | some r => (.ok (some (remapToGraphQLSingleOutput r)), [q])
  | .error e => (.error ⟨e⟩, [q])

/-- Embeds the resolver returned by `generateInsertArray` of the mysql builder
(mysql.ts lines 187-222): remap, reject an empty list before any dispatch,
otherwise dispatch one plain insert and return `{ isSuccess: true }`; thrown
errors are re-wrapped with the same message. -/
def mysqlInsertArrayResolverRun (tableName : String) (table : Table)
    (execInsert : MySqlInsertQuery → Except String Unit)
    (values : List (List (String × Value))) :
    Except GQLError Bool × List MySqlInsertQuery :=
  let input := remapFromGraphQLArrayInput values table
  if input.isEmpty then
    (.error ⟨"No values were provided!"⟩, [])
  else
    let q : MySqlInsertQuery := { table := tableName, values := input }
    match execInsert q with
    | .ok _ => (.ok true, [q])
    | .error e => (.error ⟨e⟩, [q])

/-- Embeds the resolver returned by `generateInsertArray` of the sqlite builder
(mysql.ts lines 678-726): identical to the pg version (returning clause and
`onConflictDoNothing`), with thrown errors re-wrapped with the same message. -/
def sqliteInsertArrayResolverRun (tableName : String) (table : Table)
    (selectedCols : List String)
    (execInsert : InsertQuery → Except String (List Row))
    (values : List (List (String × Value))) :
    Except GQLError (List Row) × List InsertQuery :=
  let input := remapFromGraphQLArrayInput values table
  if input.isEmpty then
    (.error ⟨"No values were provided!"⟩, [])
  else
    let q : InsertQuery :=
      { table := tableName
        values := input
        returningCols := selectedCols
        onConflictDoNothing := true }
    match execInsert q with
    | .ok rows => (.ok (remapToGraphQLArrayOutput rows), [q])
    | .error e => (.error ⟨e⟩, [q])

/-- Embeds the resolver returned by `generateInsertSingle` of the sqlite
builder (mysql.ts lines 728-774): as the pg version, absent `result[0]`
yields an absent result. -/
def sqliteInsertSingleResolverRun (tableName : String) (table : Table)
    (selectedCols : List String)
    (execInsert : InsertQuery → Except String (List Row))
    (value : List (String × Value)) :
    Except GQLError (Option Row) × List InsertQuery :=
  let input := remapFromGraphQLSingleInput value table
  let q : InsertQuery :=
    { table := tableName
      values := [input]
      returningCols := selectedCols
      onConflictDoNothing := true }
  match execInsert q with
  | .ok rows =>
    match rows.head? with
    | none => (.ok none, [q])
    | some r => (.ok (some (remapToGraphQLSingleOutput r)), [q])
  | .error e => (.error ⟨e⟩, [q])

/-! ## Select builders and resolvers (pg.ts lines 33-320, mysql.ts lines
36-185 with the sqlite copy at lines 527-676) -/

/-- Relation cardinality (drizzle `One` / `Many`). -/
inductive Cardinality where
  | one
  | many
deriving DecidableEq, Repr

/-- A named relation edge as seen by the builders: the drizzle `Relation`
value, whose `referencedTable` the pg resolver reads directly. -/
structure RelationDef where
  name : String
  card : Cardinality
  referencedTable : Table
deriving DecidableEq, Repr

/-- The nested-argument field names of one relation entry of the `relations`
argument, as built by pg.ts lines 62-73 (`is(relVal, Many)` branch includes
`limit`; the one-cardinality branch does not). -/
def pgRelationArgFields (isMany : Bool) : List String :=
  if isMany then ["where", "orderBy", "offset", "limit"]
  else ["where", "orderBy", "offset"]

/-- The `relations` input object of a pg select operation: one field per
relation entry, each with its nested argument field names (pg.ts lines 52-79
and the identical lines 198-225 of `generateSelectSingle`). -/
def pgRelationArgsFields (rels : List RelationDef) : List (String × List String) :=
  rels.map (fun r => (r.name, pgRelationArgFields (r.card == Cardinality.many)))

/-- The statically generated part of a select operation: its argument names in
declaration order and, when the table has relations, the per-relation nested
argument shapes. -/
structure CreatedSelect where
  argNames : List String
  relationArgs : Option (List (String × List String))
deriving DecidableEq, Repr

/-- Embeds the generation-time part of `generateSelectArray` of pg.ts (lines
33-111): looking up `db.query[tableName]` and throwing when absent happens
here, before a resolver exists; the argument map always carries
offset/limit/orderBy/where and additionally `relations` when the table has a
relations record. -/
def pgGenerateSelectArray (dbQueryTables : List String) (tableName : String)
    (rels : Option (List RelationDef)) : Except String CreatedSelect :=
  if dbQueryTables.contains tableName then
    match rels with
    | some rs =>
      .ok { argNames := ["offset", "limit", "orderBy", "where", "relations"]
            relationArgs := some (pgRelationArgsFields rs) }
    | none =>
      .ok { argNames := ["offset", "limit", "orderBy", "where"]
            relationArgs := none }
  else
    .error ("Table " ++ tableName ++
      " not found in drizzle instance. Did you forget to pass schema to drizzle constructor?")

/-- Embeds the generation-time part of `generateSelectSingle` of pg.ts (lines
179-253).  Note the two branches of the source's `queryArgs`: with a relations
record the arguments are offset/orderBy/where/relations (no `limit`), but the
no-relations fallback branch (lines 240-253) lists offset/limit/orderBy/where,
`limit` included. -/
def pgGenerateSelectSingle (dbQueryTables : List String) (tableName : String)
    (rels : Option (List RelationDef)) : Except String CreatedSelect :=
  if dbQueryTables.contains tableName then
    match rels with
    | some rs =>
      .ok { argNames := ["offset", "orderBy", "where", "relations"]
            relationArgs := some (pgRelationArgsFields rs) }
    | none =>
      .ok { argNames := ["offset", "limit", "orderBy", "where"]
            relationArgs := none }
  else
    .error ("Table " ++ tableName ++
      " not found in drizzle instance. Did you forget to pass schema to drizzle constructor?")

/-- The argument names of the mysql builder's select-many operation
(mysql.ts lines 46-59). -/
def mysqlSelectArrayArgNames : List String :=
  ["offset", "limit", "orderBy", "where"]

/-- The argument names of the mysql builder's select-single operation
(mysql.ts lines 123-133): no `limit`. -/
def mysqlSelectSingleArgNames : List String :=
  ["offset", "orderBy", "where"]

/-- The per-request arguments of a select operation. -/
structure TableSelectArgsM where
  offset : Option Int := none
  limit : Option Int := none
  orderBy : Option OrderByInput := none
  whereArg : Option FilterInput := none
deriving DecidableEq, Repr

/-- The full argument object of a select resolver, including the per-relation
nested arguments. -/
structure SelectArgsM where
  offset : Option Int := none
  limit : Option Int := none
  orderBy : Option OrderByInput := none
  whereArg : Option FilterInput := none
  relations : List (String × TableSelectArgsM) := []
deriving DecidableEq, Repr

/-- The client's field selection for the queried table: the requested scalar
field names, and the requested relation fields with their own scalar
sub-selection (one level, exactly as far as the resolvers look). -/
structure SelectionNodeM where
  scalarFields : List String
  relNodes : List (String × List String)
deriving DecidableEq, Repr

/-- One entry of the `with` clause handed to the executor. -/
structure WithEntry where
  columns : List String
  orderBy : Option (List (String × Bool))
  whereFilter : Option Predicate
  offset : Option Int
  limit : Option Int
deriving DecidableEq, Repr

/-- A `findMany` invocation as handed to the executor. -/
structure FindManyQuery where
  table : String
  columns : List String
  offset : Option Int
  limit : Option Int
  orderBy : Option (List (String × Bool))
  whereFilter : Option Predicate
  withRels : List (String × WithEntry)
deriving DecidableEq, Repr

/-- A `findFirst` invocation as handed to the executor: the relational query
builder's single-row entry point has no top-level `limit`. -/
structure FindFirstQuery where
  table : String
  columns : List String
  offset : Option Int
  orderBy : Option (List (String × Bool))
  whereFilter : Option Predicate
  withRels : List (String × WithEntry)
deriving DecidableEq, Repr

/-- Embeds the `withFields` loop of the pg select resolvers (pg.ts lines
132-160 and 275-303): for each declared relation whose field the client
selected, compile that relation's nested arguments against the referenced
table. -/
def pgBuildWithFields (rels : List RelationDef) (sel : SelectionNodeM)
    (argRelations : List (String × TableSelectArgsM)) :
    List (String × WithEntry) :=
  rels.filterMap (fun rel =>
    match sel.relNodes.find? (fun p => p.1 == rel.name) with
    | none => none
    | some node =>
      let rargs := (argRelations.find? (fun p => p.1 == rel.name)).map (fun p => p.2)
      some (rel.name,
        { columns := extractSelectedColumns node.2 rel.referencedTable
          orderBy := (rargs.bind (fun a => a.orderBy)).map (extractOrderBy rel.referencedTable)
          whereFilter :=
            (rargs.bind (fun a => a.whereArg)).map (extractFilters rel.referencedTable rel.name)
          offset := rargs.bind (fun a => a.offset)
          limit := rargs.bind (fun a => a.limit) }))

/-- Embeds the resolver returned by `generateSelectArray` of pg.ts (lines
112-176): build the projection and `with` clause from the client selection,
dispatch one `findMany`, remap the rows.  pg has no try/catch, so an executor
rejection propagates with its original message. -/
def pgSelectArrayResolverRun (tableName : String) (table : Table)
    (rels : Option (List RelationDef))
    (execFindMany : FindManyQuery → Except String (List Row))
    (args : SelectArgsM) (sel : SelectionNodeM) :
    Except GQLError (List Row) × List FindManyQuery :=
  let withFields :=
    match rels with
    | none => []
    | some rs => pgBuildWithFields rs sel args.relations
  let q : FindManyQuery :=
    { table := tableName
      columns := extractSelectedColumns sel.scalarFields table
      offset := args.offset
      limit := args.limit
      orderBy := args.orderBy.map (extractOrderBy table)
      whereFilter := args.whereArg.map (extractFilters table tableName)
      withRels := withFields }
  match execFindMany q with
  | .ok rows => (.ok (remapToGraphQLArrayOutput rows), [q])
  | .error e => (.error ⟨e⟩, [q])

/-- Embeds the resolver returned by `generateSelectSingle` of pg.ts (lines
255-319): dispatch one `findFirst`; when the executor reports no row
(`if (!result) return undefined`), return an absent result without touching
the output remapper — the remapper is therefore a parameter here, and the
absent-row outcome holds for every remapper. -/
def pgSelectSingleResolverRun (tableName : String) (table : Table)
    (rels : Option (List RelationDef))
    (execFindFirst : FindFirstQuery → Except String (Option Row))
    (remapSingle : Row → Row)
    (args : SelectArgsM) (sel : SelectionNodeM) :
    Except GQLError (Option Row) × List FindFirstQuery :=
  let withFields :=
    match rels with
    | none => []
    | some rs => pgBuildWithFields rs sel args.relations
  let q : FindFirstQuery :=
    { table := tableName
      columns := extractSelectedColumns sel.scalarFields table
      offset := args.offset
      orderBy := args.orderBy.map (extractOrderBy table)
      whereFilter := args.whereArg.map (extractFilters table tableName)
      withRels := withFields }
  match execFindFirst q with
  | .ok none => (.ok none, [q])
  | .ok (some r) => (.ok (some (remapSingle r)), [q])
  | .error e => (.error ⟨e⟩, [q])

/-- Embeds the resolver returned by `generateSelectArray` of the mysql builder
(mysql.ts lines 36-111).  Unlike pg, the lookup of
`dynamicDb.query[tableName]` happens inside the resolver, per request: when
the table is absent the resolver itself produces the missing-table error (via
the catch block, which re-wraps it as a `GraphQLError` with the same message)
and nothing is dispatched.  `relParams` stands for the output of
`extractRelationsParams` (builders/common, not under src/), attached when the
relation map has an entry for this table. -/
def mysqlSelectArrayResolverRun (dbQueryTables : List String) (tableName : String)
    (table : Table) (relationMapHas : Bool) (relParams : List (String × WithEntry))
    (execFindMany : FindManyQuery → Except String (List Row))
    (args : TableSelectArgsM) (sel : SelectionNodeM) :
    Except GQLError (List Row) × List FindManyQuery :=
  if dbQueryTables.contains tableName then
    let q : FindManyQuery :=
      { table := tableName
        columns := extractSelectedColumns sel.scalarFields table
        offset := args.offset
        limit := args.limit
        orderBy := args.orderBy.map (extractOrderBy table)
        whereFilter := args.whereArg.map (extractFilters table tableName)
        withRels := if relationMapHas then relParams else [] }
    match execFindMany q with
    | .ok rows => (.ok (remapToGraphQLArrayOutput rows), [q])
    | .error e => (.error ⟨e⟩, [q])
  else
    (.error ⟨"Drizzle-GraphQL Error: Table " ++ tableName ++
      " not found in drizzle instance. Did you forget to pass schema to drizzle constructor?"⟩, [])

/-- Embeds the resolver returned by `generateSelectSingle` of the mysql builder
(mysql.ts lines 113-185): per-request table lookup as above; an absent row
(`if (!result) return undefined`) yields an absent result for every output
remapper. -/
def mysqlSelectSingleResolverRun (dbQueryTables : List String) (tableName : String)
    (table : Table) (relationMapHas : Bool) (relParams : List (String × WithEntry))
    (execFindFirst : FindFirstQuery → Except String (Option Row))
    (remapSingle : Row → Row)
    (args : TableSelectArgsM) (sel : SelectionNodeM) :
    Except GQLError (Option Row) × List FindFirstQuery :=
  if dbQueryTables.contains tableName then
    let q : FindFirstQuery :=
      { table := tableName
        columns := extractSelectedColumns sel.scalarFields table
        offset := args.offset
        orderBy := args.orderBy.map (extractOrderBy table)
        whereFilter := args.whereArg.map (extractFilters table tableName)
        withRels := if relationMapHas then relParams else [] }
    match execFindFirst q with
    | .ok none => (.ok none, [q])
    | .ok (some r) => (.ok (some (remapSingle r)), [q])
    | .error e => (.error ⟨e⟩, [q])
  else
    (.error ⟨"Drizzle-GraphQL Error: Table " ++ tableName ++
      " not found in drizzle instance. Did you forget to pass schema to drizzle constructor?"⟩, [])

/-! ## Delete resolvers (pg.ts lines 426-461, mysql.ts lines 309-349) -/

/-- A delete statement as handed to the pg executor
(`db.delete(table)[.where(filters)].returning(columns)`). -/
structure DeleteQuery where
  table : String
  whereFilter : Option Predicate
  returningCols : List String
deriving DecidableEq, Repr

/-- The delete statement shape of the mysql dialect (no `returning`). -/
structure MySqlDeleteQuery where
  table : String
  whereFilter : Option Predicate
deriving DecidableEq, Repr

/-- Embeds the resolver returned by `generateDelete` of pg.ts (lines 426-461):
attach a predicate only when `where` was given, dispatch unconditionally —
there is no validation or guard of any kind on a missing `where`. -/
def pgDeleteResolverRun (tableName : String) (table : Table)
    (selectedCols : List String)
    (execDelete : DeleteQuery → Except String (List Row))
    (whereArg : Option FilterInput) :
    Except GQLError (List Row) × List DeleteQuery :=
  let q : DeleteQuery :=
    { table := tableName
      whereFilter := whereArg.map (extractFilters table tableName)
      returningCols := selectedCols }
  match execDelete q with
  | .ok rows => (.ok (remapToGraphQLArrayOutput rows), [q])
  | .error e => (.error ⟨e⟩, [q])

/-- Embeds the resolver returned by `generateDelete` of the mysql builder
(mysql.ts lines 309-349): as pg, with no returning clause and a boolean
success result. -/
def mysqlDeleteResolverRun (tableName : String) (table : Table)
    (execDelete : MySqlDeleteQuery → Except String Unit)
    (whereArg : Option FilterInput) :
    Except GQLError Bool × List MySqlDeleteQuery :=
  let q : MySqlDeleteQuery :=
    { table := tableName
      whereFilter := whereArg.map (extractFilters table tableName) }
  match execDelete q with
  | .ok _ => (.ok true, [q])
  | .error e => (.error ⟨e⟩, [q])

/-! ## Schema-level generation (pg.ts lines 463-574, mysql.ts lines 351-491) -/

/-- Modelled from the spec: `capitalize` (case-ops, not under src/) upper-cases
the first character, per the naming convention `insertInto<Table>` of spec §6. -/
def capitalize (s : String) : String :=
  match s.data with
  | [] => s
  | c :: cs => String.mk (c.toUpper :: cs)

/-- Modelled from the spec: `uncapitalize` (case-ops, not under src/)
lower-cases the first character, per the naming convention `<table>` of
spec §6. -/
def uncapitalize (s : String) : String :=
  match s.data with
  | [] => s
  | c :: cs => String.mk (c.toLower :: cs)

/-- The two query-map entries the mysql builder generates for one table, in
the order the loop assigns them (mysql.ts lines 456-465): the select-many
operation under `uncapitalize(tableName)` and the select-single operation
under `uncapitalize(tableName) ++ "Single"`.  Values tag the originating
operation and table. -/
def mysqlQueryNamesOf (t : String) : List (String × String) :=
  [(uncapitalize t, "selectArray:" ++ t),
   (uncapitalize t ++ "Single", "selectSingle:" ++ t)]

/-- The four mutation-map entries the mysql builder generates for one table
(mysql.ts lines 466-485; note `deleteFrom${tableName}` at line 315 uses the
table name uncapitalized as written). -/
def mysqlMutationNamesOf (t : String) : List (String × String) :=
  [("insertInto" ++ capitalize t, "insertArray:" ++ t),
   ("insertInto" ++ capitalize t ++ "Single", "insertSingle:" ++ t),
   ("update" ++ capitalize t, "update:" ++ t),
   ("deleteFrom" ++ t, "delete:" ++ t)]

/-- JavaScript object assignment `m[k] = v`: replace in place when the key is
already present (keeping its original position), append otherwise. -/
def jsAssign (m : List (String × α)) (k : String) (v : α) : List (String × α) :=
  if m.any (fun p => p.1 == k) then
    m.map (fun p => if p.1 == k then (k, v) else p)
  else
    m ++ [(k, v)]

/-- Perform a sequence of JavaScript object assignments in order. -/
def jsAssignAll (m : List (String × α)) (ws : List (String × α)) : List (String × α) :=
  ws.foldl (fun acc w => jsAssign acc w.1 w.2) m

/-- The last value assigned to key `k` by the write sequence `ws`, if any. -/
def lastWrite (ws : List (String × α)) (k : String) : Option α :=
  (ws.reverse.find? (fun p => p.1 == k)).map (fun p => p.2)

/-- The `queries` object built by the mysql `generateSchemaData` loop
(mysql.ts lines 402, 425-488): iterate the schema's tables in order, assigning
each table's two query entries into one shared object — plain assignment,
with no collision check of any kind. -/
def mysqlQueriesMap (tableNames : List String) : List (String × String) :=
  jsAssignAll [] (tableNames.flatMap mysqlQueryNamesOf)

/-- The `mutations` object built by the same loop. -/
def mysqlMutationsMap (tableNames : List String) : List (String × String) :=
  jsAssignAll [] (tableNames.flatMap mysqlMutationNamesOf)

/-- Embeds the named-relation construction of the mysql `generateSchemaData`
(mysql.ts lines 383-400): each relation's referenced table is looked up among
the schema's table entries, and the source's non-null assertion
(`tableEntries.find(...)![0]`) throws at generation time when the target is
absent from the schema. -/
def mysqlResolveNamedRelations (tableEntries : List (String × Table)) :
    List (String × RelationDef) → Except String (List (String × String))
  | [] => .ok []
  | p :: rest =>
    match tableEntries.find? (fun te => te.2 == p.2.referencedTable) with
    | none =>
      .error "TypeError: relation references a table absent from the schema"
    | some te =>
      match mysqlResolveNamedRelations tableEntries rest with
      | .error e => .error e
      | .ok others => .ok ((p.1, te.1) :: others)

/-! ## Shared concrete fixtures for witnesses and counterexamples -/

/-- A sample users table. -/
def usersTable : Table :=
  { name := "users", columns := [{ name := "id" }, { name := "name" }] }

/-- A sample posts table. -/
def postsTable : Table :=
  { name := "posts"
    columns := [{ name := "id" }, { name := "userId" }, { name := "title" }] }

/-! ## Claims -/

/-- C1: for every table, invoking the update operation with an empty `set`
field map fails with the argument-validation error
`Unable to update with no values specified!` and dispatches zero queries to
the executor, in both the pg and the mysql builder. -/
theorem C1_update_empty_set_no_dispatch :
    (∀ (tableName : String) (table : Table) (cols : List String)
       (execUpdate : UpdateQuery → Except String (List Row))
       (whereArg : Option FilterInput),
       pgUpdateResolverRun tableName table cols execUpdate [] whereArg =
         (.error ⟨"Unable to update with no values specified!"⟩, [])) ∧
    (∀ (tableName : String) (table : Table)
       (execUpdate : MySqlUpdateQuery → Except String Unit)
       (whereArg : Option FilterInput),
       mysqlUpdateResolverRun tableName table execUpdate [] whereArg =
         (.error ⟨"Unable to update with no values specified!"⟩, [])) :=
  ⟨fun _ _ _ _ _ => rfl, fun _ _ _ _ => rfl⟩

/-- C2: for every table, invoking the insert-many operation with an empty
values list fails with the explicit error `No values were provided!` and
dispatches no insert to the executor, in the pg, mysql and sqlite builders. -/
theorem C2_insert_many_empty_values_no_dispatch :
    (∀ (tableName : String) (table : Table) (cols : List String)
       (execInsert : InsertQuery → Except String (List Row)),
       pgInsertArrayResolverRun tableName table cols execInsert [] =
         (.error ⟨"No values were provided!"⟩, [])) ∧
    (∀ (tableName : String) (table : Table)
       (execInsert : MySqlInsertQuery → Except String Unit),
       mysqlInsertArrayResolverRun tableName table execInsert [] =
         (.error ⟨"No values were provided!"⟩, [])) ∧
    (∀ (tableName : String) (table : Table) (cols : List String)
       (execInsert : InsertQuery → Except String (List Row)),
       sqliteInsertArrayResolverRun tableName table cols execInsert [] =
         (.error ⟨"No values were provided!"⟩, [])) :=
  ⟨fun _ _ _ _ => rfl, fun _ _ _ => rfl, fun _ _ _ _ => rfl⟩

/-- C9: for every table, when the select-one executor query finds no matching
row, the operation returns an absent result — not an error, and independently
of the output remapper, which is therefore never applied — in both the pg and
the mysql builder; exactly one query is dispatched. -/
theorem C9_select_single_absent_row_returns_none (tableName : String)
    (table : Table) (rels : Option (List RelationDef))
    (dbQueryTables : List String) (relationMapHas : Bool)
    (relParams : List (String × WithEntry))
    (execFindFirst : FindFirstQuery → Except String (Option Row))
    (remapSingle : Row → Row) (args : SelectArgsM) (margs : TableSelectArgsM)
    (sel : SelectionNodeM)
    (hexec : ∀ q, execFindFirst q = .ok none)
    (hdb : dbQueryTables.contains tableName = true) :
    (pgSelectSingleResolverRun tableName table rels execFindFirst remapSingle
        args sel).1 = .ok none ∧
    (pgSelectSingleResolverRun tableName table rels execFindFirst remapSingle
        args sel).2.length = 1 ∧
    (mysqlSelectSingleResolverRun dbQueryTables tableName table relationMapHas
        relParams execFindFirst remapSingle margs sel).1 = .ok none ∧
    (mysqlSelectSingleResolverRun dbQueryTables tableName table relationMapHas
        relParams execFindFirst remapSingle margs sel).2.length = 1 := by
  have hdb' : tableName ∈ dbQueryTables := by simpa using hdb
  refine ⟨?_, ?_, ?_, ?_⟩ <;>
    simp [pgSelectSingleResolverRun, mysqlSelectSingleResolverRun, hexec, hdb']

/-- Witness for C9 at a concrete input: the users table with no relations, an
executor that finds no row, and the identity remapper. -/
theorem C9_witness :
    (pgSelectSingleResolverRun "users" usersTable none (fun _ => .ok none)
        (fun r => r) {} ⟨["id"], []⟩).1 = .ok none ∧
    (pgSelectSingleResolverRun "users" usersTable none (fun _ => .ok none)
        (fun r => r) {} ⟨["id"], []⟩).2.length = 1 ∧
    (mysqlSelectSingleResolverRun ["users"] "users" usersTable false []
        (fun _ => .ok none) (fun r => r) {} ⟨["id"], []⟩).1 = .ok none ∧
    (mysqlSelectSingleResolverRun ["users"] "users" usersTable false []
        (fun _ => .ok none) (fun r => r) {} ⟨["id"], []⟩).2.length = 1 :=
  C9_select_single_absent_row_returns_none "users" usersTable none ["users"]
    false [] (fun _ => .ok none) (fun r => r) {} {} ⟨["id"], []⟩
    (fun _ => rfl) (by decide)

/-- C10: for every table, invoking the delete operation with no `where`
argument dispatches exactly one delete statement carrying no predicate — and
returns the executor's outcome with no confirmation, validation, or guard of
any kind — in both the pg and the mysql builder. -/
theorem C10_delete_without_where_unguarded (tableName : String) (table : Table)
    (cols : List String) (execDelete : DeleteQuery → Except String (List Row))
    (mexecDelete : MySqlDeleteQuery → Except String Unit) :
    (pgDeleteResolverRun tableName table cols execDelete none).2 =
      [{ table := tableName, whereFilter := none, returningCols := cols }] ∧
    (∀ rows,
      execDelete { table := tableName, whereFilter := none, returningCols := cols } =
          .ok rows →
      (pgDeleteResolverRun tableName table cols execDelete none).1 =
        .ok (remapToGraphQLArrayOutput rows)) ∧
    (mysqlDeleteResolverRun tableName table mexecDelete none).2 =
      [{ table := tableName, whereFilter := none }] ∧
    (mexecDelete { table := tableName, whereFilter := none } = .ok () →
      (mysqlDeleteResolverRun tableName table mexecDelete none).1 = .ok true) := by
  refine ⟨?_, ?_, ?_, ?_⟩
  · unfold pgDeleteResolverRun
    cases hq : execDelete { table := tableName, whereFilter := none, returningCols := cols } <;>
      simp [hq]
  · intro rows hq
    unfold pgDeleteResolverRun
    simp [hq]
  · unfold mysqlDeleteResolverRun
    cases hq : mexecDelete { table := tableName, whereFilter := none } <;> simp [hq]
  · intro hq
    unfold mysqlDeleteResolverRun
    simp [hq]

/-- Witness for C10 at a concrete input: deleting from the users table with no
filter under an executor returning one row. -/
theorem C10_witness :
    (pgDeleteResolverRun "users" usersTable ["id"]
        (fun _ => .ok [[("id", Value.intV 1)]]) none).2 =
      [{ table := "users", whereFilter := none, returningCols := ["id"] }] ∧
    (∀ rows,
      (fun (_ : DeleteQuery) =>
          (Except.ok [[("id", Value.intV 1)]] : Except String (List Row)))
          { table := "users", whereFilter := none, returningCols := ["id"] } = .ok rows →
      (pgDeleteResolverRun "users" usersTable ["id"]
          (fun _ => .ok [[("id", Value.intV 1)]]) none).1 =
        .ok (remapToGraphQLArrayOutput rows)) ∧
    (mysqlDeleteResolverRun "users" usersTable (fun _ => .ok ()) none).2 =
      [{ table := "users", whereFilter := none }] ∧
    ((fun (_ : MySqlDeleteQuery) => (Except.ok () : Except String Unit))
        { table := "users", whereFilter := none } = .ok () →
      (mysqlDeleteResolverRun "users" usersTable (fun _ => .ok ()) none).1 = .ok true) :=
  C10_delete_without_where_unguarded "users" usersTable ["id"]
    (fun _ => .ok [[("id", Value.intV 1)]]) (fun _ => .ok ())

/-- On our value model the output remap is the identity on row lists. -/
theorem remapToGraphQLArrayOutput_eq (rs : List Row) :
    remapToGraphQLArrayOutput rs = rs := by
  induction rs with
  | nil => rfl
  | cons r rs ih =>
    show remapToGraphQLSingleOutput r :: remapToGraphQLArrayOutput rs = r :: rs
    rw [ih]
    rfl

/-- C7: when the external executor rejects the compiled query, the failure is
surfaced to the caller with the original error message preserved, and exactly
one query was dispatched — no retry.  Shown for the mysql select-many resolver
(whose catch block re-wraps the message) and the pg insert-many resolver
(which propagates the rejection unchanged). -/
theorem C7_executor_rejection_propagated_once (dbQueryTables : List String)
    (tableName : String) (table : Table) (relationMapHas : Bool)
    (relParams : List (String × WithEntry)) (cols : List String)
    (execFindMany : FindManyQuery → Except String (List Row))
    (execInsert : InsertQuery → Except String (List Row))
    (margs : TableSelectArgsM) (sel : SelectionNodeM)
    (values : List (List (String × Value))) (msg : String)
    (hdb : dbQueryTables.contains tableName = true)
    (hvals : values ≠ [])
    (hm : ∀ q, execFindMany q = .error msg)
    (hi : ∀ q, execInsert q = .error msg) :
    (mysqlSelectArrayResolverRun dbQueryTables tableName table relationMapHas
        relParams execFindMany margs sel).1 = .error ⟨msg⟩ ∧
    (mysqlSelectArrayResolverRun dbQueryTables tableName table relationMapHas
        relParams execFindMany margs sel).2.length = 1 ∧
    (pgInsertArrayResolverRun tableName table cols execInsert values).1 =
      .error ⟨msg⟩ ∧
    (pgInsertArrayResolverRun tableName table cols execInsert values).2.length = 1 := by
  have hdb' : tableName ∈ dbQueryTables := by simpa using hdb
  obtain ⟨v, vs, rfl⟩ : ∃ v vs, values = v :: vs := by
    cases values with
    | nil => exact absurd rfl hvals
    | cons v vs => exact ⟨v, vs, rfl⟩
  refine ⟨?_, ?_, ?_, ?_⟩ <;>
    simp [mysqlSelectArrayResolverRun, pgInsertArrayResolverRun,
      remapFromGraphQLArrayInput, hdb', hm, hi]

/-- Witness for C7 at a concrete input: an executor that always rejects with
`connection refused`; one query is dispatched and the message is preserved. -/
theorem C7_witness :
    (mysqlSelectArrayResolverRun ["users"] "users" usersTable false []
        (fun _ => .error "connection refused") {} ⟨["id"], []⟩).1 =
      .error ⟨"connection refused"⟩ ∧
    (mysqlSelectArrayResolverRun ["users"] "users" usersTable false []
        (fun _ => .error "connection refused") {} ⟨["id"], []⟩).2.length = 1 ∧
    (pgInsertArrayResolverRun "users" usersTable ["id"]
        (fun _ => .error "connection refused")
        [[("id", Value.intV 1)]]).1 = .error ⟨"connection refused"⟩ ∧
    (pgInsertArrayResolverRun "users" usersTable ["id"]
        (fun _ => .error "connection refused")
        [[("id", Value.intV 1)]]).2.length = 1 :=
  C7_executor_rejection_propagated_once ["users"] "users" usersTable false []
    ["id"] (fun _ => .error "connection refused")
    (fun _ => .error "connection refused") {} ⟨["id"], []⟩
    [[("id", Value.intV 1)]] "connection refused" (by decide)
    (by decide) (fun _ => rfl) (fun _ => rfl)

/-- Modelled from the spec: the external executor of a dialect supporting
conflict-skipping (spec §7) — an insert statement built with
`onConflictDoNothing` inserts only the non-conflicting rows and returns
exactly those (per its returning clause), without error; without the conflict
clause a conflicting insert is rejected. -/
def conflictSkipExec (conflicts : Row → Bool) : InsertQuery → Except String (List Row) :=
  fun q =>
    if q.onConflictDoNothing then
      .ok (q.values.filter (fun r => !(conflicts r)))
    else
      .error "duplicate key value violates unique constraint"

/-- C6: under a conflict-skipping executor (pg, sqlite), an insert whose row
conflicts with an existing row is a soft no-op: insert-many does not error and
returns exactly the non-conflicting rows (every conflicting row omitted), and
insert-one of a conflicting row returns an absent result rather than an
error. -/
theorem C6_insert_conflict_soft_noop (tableName : String) (table : Table)
    (cols : List String) (conflicts : Row → Bool)
    (values : List (List (String × Value))) (value : List (String × Value))
    (hvals : values ≠ [])
    (hconf : conflicts (remapFromGraphQLSingleInput value table) = true) :
    (pgInsertArrayResolverRun tableName table cols (conflictSkipExec conflicts)
        values).1 =
      .ok ((remapFromGraphQLArrayInput values table).filter
        (fun r => !(conflicts r))) ∧
    (∀ r ∈ (remapFromGraphQLArrayInput values table).filter
        (fun r => !(conflicts r)), conflicts r = false) ∧
    (pgInsertSingleResolverRun tableName table cols (conflictSkipExec conflicts)
        value).1 = .ok none ∧
    (sqliteInsertArrayResolverRun tableName table cols
        (conflictSkipExec conflicts) values).1 =
      .ok ((remapFromGraphQLArrayInput values table).filter
        (fun r => !(conflicts r))) ∧
    (sqliteInsertSingleResolverRun tableName table cols
        (conflictSkipExec conflicts) value).1 = .ok none := by
  refine ⟨?_, ?_, ?_, ?_, ?_⟩
  · cases values with
    | nil => exact absurd rfl hvals
    | cons v vs =>
      simp [pgInsertArrayResolverRun, remapFromGraphQLArrayInput,
        conflictSkipExec, remapToGraphQLArrayOutput_eq]
  · intro r hr
    simpa using (List.mem_filter.mp hr).2
  · simp [pgInsertSingleResolverRun, conflictSkipExec, hconf]
  · cases values with
    | nil => exact absurd rfl hvals
    | cons v vs =>
      simp [sqliteInsertArrayResolverRun, remapFromGraphQLArrayInput,
        conflictSkipExec, remapToGraphQLArrayOutput_eq]
  · simp [sqliteInsertSingleResolverRun, conflictSkipExec, hconf]

/-- Witness for C6 at a concrete input: inserting rows with ids 1 and 2 where
id 1 conflicts — the many-insert returns only the id-2 row, the single-insert
of the conflicting row returns an absent result. -/
theorem C6_witness :
    (pgInsertArrayResolverRun "users" usersTable ["id"]
        (conflictSkipExec (fun r => decide (r = [("id", Value.intV 1)])))
        [[("id", Value.intV 1)], [("id", Value.intV 2)]]).1 =
      .ok ((remapFromGraphQLArrayInput
            [[("id", Value.intV 1)], [("id", Value.intV 2)]] usersTable).filter
        (fun r => !(decide (r = [("id", Value.intV 1)])))) ∧
    (∀ r ∈ (remapFromGraphQLArrayInput
          [[("id", Value.intV 1)], [("id", Value.intV 2)]] usersTable).filter
        (fun r => !(decide (r = [("id", Value.intV 1)]))),
        decide (r = [("id", Value.intV 1)]) = false) ∧
    (pgInsertSingleResolverRun "users" usersTable ["id"]
        (conflictSkipExec (fun r => decide (r = [("id", Value.intV 1)])))
        [("id", Value.intV 1)]).1 = .ok none ∧
    (sqliteInsertArrayResolverRun "users" usersTable ["id"]
        (conflictSkipExec (fun r => decide (r = [("id", Value.intV 1)])))
        [[("id", Value.intV 1)], [("id", Value.intV 2)]]).1 =
      .ok ((remapFromGraphQLArrayInput
            [[("id", Value.intV 1)], [("id", Value.intV 2)]] usersTable).filter
        (fun r => !(decide (r = [("id", Value.intV 1)])))) ∧
    (sqliteInsertSingleResolverRun "users" usersTable ["id"]
        (conflictSkipExec (fun r => decide (r = [("id", Value.intV 1)])))
        [("id", Value.intV 1)]).1 = .ok none :=
  C6_insert_conflict_soft_noop "users" usersTable ["id"]
    (fun r => decide (r = [("id", Value.intV 1)]))
    [[("id", Value.intV 1)], [("id", Value.intV 2)]] [("id", Value.intV 1)]
    (by decide) (by decide)

/-! ## Lookup laws of JavaScript object assignment -/

/-- Cons-step of `List.lookup` in `if` form. -/
theorem lookup_cons_pair (k k₁ : String) (v₁ : α) (l : List (String × α)) :
    List.lookup k ((k₁, v₁) :: l) =
      if (k == k₁) = true then some v₁ else List.lookup k l := by
  cases hk : k == k₁ <;> simp [List.lookup_cons, hk]

/-- A list with no pair keyed by `k` looks up to `none`. -/
theorem lookup_eq_none_of_no_key (k : String) :
    ∀ (m : List (String × α)), m.any (fun p => p.1 == k) = false →
      List.lookup k m = none := by
  intro m
  induction m with
  | nil => intro _; rfl
  | cons p ps ih =>
    obtain ⟨k₁, v₁⟩ := p
    intro h
    simp only [List.any_cons] at h
    have h₁ : (k₁ == k) = false := by
      cases hh : k₁ == k
      · rfl
      · rw [hh] at h; simp at h
    have h₂ : ps.any (fun p => p.1 == k) = false := by
      rw [h₁] at h; simpa using h
    have hk : (k == k₁) = false :=
      beq_eq_false_iff_ne.mpr (Ne.symm (beq_eq_false_iff_ne.mp h₁))
    rw [lookup_cons_pair, if_neg (by simp [hk]), ih h₂]

/-- Looking up the assigned key after `m[k] = v` yields `v`. -/
theorem lookup_jsAssign_self (m : List (String × α)) (k : String) (v : α) :
    List.lookup k (jsAssign m k v) = some v := by
  unfold jsAssign
  by_cases h : m.any (fun p => p.1 == k) = true
  · rw [if_pos h]
    induction m with
    | nil => simp at h
    | cons p ps ih =>
      obtain ⟨k₁, v₁⟩ := p
      by_cases hpk : (k₁ == k) = true
      · rw [List.map_cons, if_pos hpk]
        exact List.lookup_cons_self
      · have hpk' : (k₁ == k) = false := by
          revert hpk; cases k₁ == k <;> simp
        have h' : ps.any (fun q => q.1 == k) = true := by
          simp only [List.any_cons, hpk', Bool.false_or] at h
          exact h
        have hk : (k == k₁) = false :=
          beq_eq_false_iff_ne.mpr (Ne.symm (beq_eq_false_iff_ne.mp hpk'))
        rw [List.map_cons, if_neg hpk, lookup_cons_pair,
          if_neg (by simp [hk])]
        exact ih h'
  · have h' : m.any (fun p => p.1 == k) = false := by
      revert h; cases m.any (fun p => p.1 == k) <;> simp
    rw [if_neg h, List.lookup_append, lookup_eq_none_of_no_key k m h',
      List.lookup_cons_self, Option.none_or]

/-- Looking up any other key after `m[k] = v` is unchanged. -/
theorem lookup_jsAssign_other (m : List (String × α)) (k k' : String) (v : α)
    (hne : k' ≠ k) :
    List.lookup k' (jsAssign m k v) = List.lookup k' m := by
  have hk'k : (k' == k) = false := beq_eq_false_iff_ne.mpr hne
  unfold jsAssign
  by_cases h : m.any (fun p => p.1 == k) = true
  · rw [if_pos h]
    clear h
    induction m with
    | nil => rfl
    | cons p ps ih =>
      obtain ⟨k₁, v₁⟩ := p
      by_cases hpk : (k₁ == k) = true
      · have hpk' : k₁ = k := by simpa using hpk
        rw [List.map_cons, if_pos hpk, lookup_cons_pair, lookup_cons_pair, hpk',
          if_neg (by simp [hk'k]), if_neg (by simp [hk'k]), ih]
      · rw [List.map_cons, if_neg hpk, lookup_cons_pair, lookup_cons_pair]
        cases hk'p : k' == k₁
        · rw [if_neg (by simp [hk'p]), if_neg (by simp [hk'p]), ih]
        · rw [if_pos (by simp [hk'p]), if_pos (by simp [hk'p])]
  · rw [if_neg h, List.lookup_append]
    have hsingle : List.lookup k' [(k, v)] = none := by
      rw [lookup_cons_pair, if_neg (by simp [hk'k])]
      rfl
    rw [hsingle, Option.or_none]

/-- Looking up a key after a sequence of assignments yields the last value
assigned to it, falling back to the original object. -/
theorem lookup_jsAssignAll (ws : List (String × α)) :
    ∀ (m : List (String × α)) (k : String),
      List.lookup k (jsAssignAll m ws) =
        (lastWrite ws k).or (List.lookup k m) := by
  induction ws with
  | nil =>
    intro m k
    simp [jsAssignAll, lastWrite]
  | cons w ws ih =>
    intro m k
    have hstep : jsAssignAll m (w :: ws) = jsAssignAll (jsAssign m w.1 w.2) ws := rfl
    rw [hstep, ih]
    have hrev : (w :: ws).reverse = ws.reverse ++ [w] := by simp
    obtain ⟨kw, vw⟩ := w
    cases hws : ws.reverse.find? (fun p => p.1 == k) with
    | some pv =>
      simp [lastWrite, hrev, List.find?_append, hws]
    | none =>
      cases hk : kw == k with
      | true =>
        have hk' : kw = k := by simpa using hk
        subst hk'
        simp [lastWrite, hrev, List.find?_append, hws, List.find?, hk,
          lookup_jsAssign_self m kw vw]
      | false =>
        have hne : k ≠ kw :=
          Ne.symm (beq_eq_false_iff_ne.mp hk)
        simp [lastWrite, hrev, List.find?_append, hws, List.find?, hk,
          lookup_jsAssign_other m kw k vw hne]

/-- C4 counterexample: the schema with tables `users` and `usersSingle`
generates the name `usersSingle` twice — once as the select-single operation
of `users` and once as the select-many operation of `usersSingle` — yet
generation does not fail: the final queries object has only three entries,
the later select-many operation having silently overwritten the earlier
select-single operation of `users`.  This refutes the claim that any
collision of generated names causes generation to fail. -/
theorem C4_counterexample :
    ("usersSingle", "selectSingle:users") ∈
        (["users", "usersSingle"].flatMap mysqlQueryNamesOf) ∧
    ("usersSingle", "selectArray:usersSingle") ∈
        (["users", "usersSingle"].flatMap mysqlQueryNamesOf) ∧
    mysqlQueriesMap ["users", "usersSingle"] =
      [("users", "selectArray:users"),
       ("usersSingle", "selectArray:usersSingle"),
       ("usersSingleSingle", "selectSingle:usersSingle")] := by
  refine ⟨?_, ?_, ?_⟩ <;> decide

/-- C4 amended: generated operation names are not guaranteed unique and a
collision does not fail generation; the generated query and mutation objects
assign colliding names in place, so each generated name ends up bound to the
last operation generated with that name — later tables silently overwrite
earlier operations. -/
theorem C4_amended_collision_overwrites_last_wins (tableNames : List String)
    (k : String) :
    List.lookup k (mysqlQueriesMap tableNames) =
      lastWrite (tableNames.flatMap mysqlQueryNamesOf) k ∧
    List.lookup k (mysqlMutationsMap tableNames) =
      lastWrite (tableNames.flatMap mysqlMutationNamesOf) k := by
  constructor
  · rw [mysqlQueriesMap, lookup_jsAssignAll, List.lookup_nil, Option.or_none]
  · rw [mysqlMutationsMap, lookup_jsAssignAll, List.lookup_nil, Option.or_none]

/-- C3 counterexample: in the mysql builder the missing-table check runs
inside the resolver (per request), not at generation time — executing the
generated select-many resolver against a drizzle instance lacking the table
surfaces the schema-level missing-table error during per-request resolver
execution, refuting the claim that such failures are never surfaced there. -/
theorem C3_counterexample :
    mysqlSelectArrayResolverRun ["users"] "posts" postsTable false []
        (fun _ => .ok []) {} ⟨["id"], []⟩ =
      (.error ⟨"Drizzle-GraphQL Error: Table posts not found in drizzle instance. Did you forget to pass schema to drizzle constructor?"⟩,
        []) := by
  rfl

/-- C3 amended: a dangling relation target fails at generation time (the
non-null assertion in the named-relation construction), and a table missing
from the drizzle instance fails at generation time in the pg builder; the
mysql builder instead performs the missing-table check inside the resolver,
surfacing the error per request — although still before any query is
dispatched. -/
theorem C3_schema_failures_by_phase (dbQueryTables : List String)
    (tableName : String) (rels : Option (List RelationDef)) (table : Table)
    (relationMapHas : Bool) (relParams : List (String × WithEntry))
    (execFindMany : FindManyQuery → Except String (List Row))
    (args : TableSelectArgsM) (sel : SelectionNodeM)
    (tableEntries : List (String × Table)) (relName : String)
    (rel : RelationDef) (config : List (String × RelationDef))
    (hdb : dbQueryTables.contains tableName = false)
    (htarget : tableEntries.find? (fun te => te.2 == rel.referencedTable) = none) :
    pgGenerateSelectArray dbQueryTables tableName rels =
      .error ("Table " ++ tableName ++
        " not found in drizzle instance. Did you forget to pass schema to drizzle constructor?") ∧
    pgGenerateSelectSingle dbQueryTables tableName rels =
      .error ("Table " ++ tableName ++
        " not found in drizzle instance. Did you forget to pass schema to drizzle constructor?") ∧
    mysqlSelectArrayResolverRun dbQueryTables tableName table relationMapHas
        relParams execFindMany args sel =
      (.error ⟨"Drizzle-GraphQL Error: Table " ++ tableName ++
        " not found in drizzle instance. Did you forget to pass schema to drizzle constructor?"⟩,
        []) ∧
    mysqlResolveNamedRelations tableEntries ((relName, rel) :: config) =
      .error "TypeError: relation references a table absent from the schema" := by
  have hdb' : tableName ∉ dbQueryTables := by simpa using hdb
  refine ⟨?_, ?_, ?_, ?_⟩
  · simp [pgGenerateSelectArray, hdb']
  · simp [pgGenerateSelectSingle, hdb']
  · simp [mysqlSelectArrayResolverRun, hdb']
  · simp [mysqlResolveNamedRelations, htarget]

/-- Witness for the amended C3 at a concrete input: the table `posts` is
absent from a drizzle instance holding only `users`, and a relation pointing
at a `comments` table absent from the schema fails relation resolution. -/
theorem C3_witness :
    pgGenerateSelectArray ["users"] "posts" none =
      .error ("Table " ++ "posts" ++
        " not found in drizzle instance. Did you forget to pass schema to drizzle constructor?") ∧
    pgGenerateSelectSingle ["users"] "posts" none =
      .error ("Table " ++ "posts" ++
        " not found in drizzle instance. Did you forget to pass schema to drizzle constructor?") ∧
    mysqlSelectArrayResolverRun ["users"] "posts" postsTable false []
        (fun _ => .ok [[("id", Value.intV 1)]]) {} ⟨["id"], []⟩ =
      (.error ⟨"Drizzle-GraphQL Error: Table " ++ "posts" ++
        " not found in drizzle instance. Did you forget to pass schema to drizzle constructor?"⟩,
        []) ∧
    mysqlResolveNamedRelations [("users", usersTable)]
        [("comments",
          { name := "comments", card := Cardinality.many,
            referencedTable := { name := "comments", columns := [{ name := "id" }] } })] =
      .error "TypeError: relation references a table absent from the schema" :=
  C3_schema_failures_by_phase ["users"] "posts" none postsTable false []
    (fun _ => .ok [[("id", Value.intV 1)]]) {} ⟨["id"], []⟩
    [("users", usersTable)] "comments"
    { name := "comments", card := Cardinality.many,
      referencedTable := { name := "comments", columns := [{ name := "id" }] } }
    [] (by decide) (by decide)

/-- C5 (code bug exhibit): the select-one argument set equals the select-many
set minus `limit` in the mysql builder and in the pg builder's with-relations
branch, but the pg builder's no-relations fallback branch (pg.ts lines
240-253) exposes a `limit` argument on the select-single operation — while
its resolver never reads it (the dispatched `findFirst` is independent of any
limit argument), confirming the spec's `same minus limit` as the intent and
the extra argument as a copy-paste slip. -/
theorem C5_pg_single_limit_slip :
    pgGenerateSelectSingle ["users"] "users" none =
      .ok { argNames := ["offset", "limit", "orderBy", "where"]
            relationArgs := none } ∧
    pgGenerateSelectSingle ["users"] "users" (some []) =
      .ok { argNames := ["offset", "orderBy", "where", "relations"]
            relationArgs := some [] } ∧
    pgGenerateSelectArray ["users"] "users" none =
      .ok { argNames := ["offset", "limit", "orderBy", "where"]
            relationArgs := none } ∧
    "limit" ∉ mysqlSelectSingleArgNames ∧
    "limit" ∈ mysqlSelectArrayArgNames ∧
    (∀ (tableName : String) (table : Table) (rels : Option (List RelationDef))
       (execFindFirst : FindFirstQuery → Except String (Option Row))
       (remapSingle : Row → Row) (args : SelectArgsM) (sel : SelectionNodeM)
       (n : Option Int),
      pgSelectSingleResolverRun tableName table rels execFindFirst remapSingle
          { args with limit := n } sel =
        pgSelectSingleResolverRun tableName table rels execFindFirst remapSingle
          args sel) :=
  ⟨rfl, rfl, rfl, by decide, by decide, fun _ _ _ _ _ _ _ _ => rfl⟩

/-- C8: for a table with relations, the pg select operations accept a
`relations` argument holding exactly one entry per declared relation; each
entry's nested argument fields always include `where`, `orderBy` and
`offset`, include `limit` exactly when the relation has cardinality many, and
contain nothing else. -/
theorem C8_relation_args_restricted (dbQueryTables : List String)
    (tableName : String) (rels : List RelationDef)
    (hdb : dbQueryTables.contains tableName = true) :
    (pgGenerateSelectArray dbQueryTables tableName (some rels)).map
        (fun cs => cs.relationArgs) = .ok (some (pgRelationArgsFields rels)) ∧
    (pgGenerateSelectSingle dbQueryTables tableName (some rels)).map
        (fun cs => cs.relationArgs) = .ok (some (pgRelationArgsFields rels)) ∧
    (pgRelationArgsFields rels).map (fun p => p.1) =
      rels.map (fun r => r.name) ∧
    (∀ r ∈ rels, ∃ fs, (r.name, fs) ∈ pgRelationArgsFields rels ∧
      "where" ∈ fs ∧ "orderBy" ∈ fs ∧ "offset" ∈ fs ∧
      (("limit" ∈ fs) ↔ r.card = Cardinality.many) ∧
      (∀ f ∈ fs, f = "where" ∨ f = "orderBy" ∨ f = "offset" ∨ f = "limit")) := by
  have hdb' : tableName ∈ dbQueryTables := by simpa using hdb
  refine ⟨?_, ?_, ?_, ?_⟩
  · simp [pgGenerateSelectArray, hdb', Except.map]
  · simp [pgGenerateSelectSingle, hdb', Except.map]
  · simp [pgRelationArgsFields]
  · intro r hr
    refine ⟨pgRelationArgFields (r.card == Cardinality.many),
      List.mem_map_of_mem _ hr, ?_⟩
    cases hc : r.card <;> simp [pgRelationArgFields, hc]

/-- Witness for C8 at a concrete input: the posts table with a one-relation
`author` and a many-relation `comments`. -/
theorem C8_witness :
    (pgGenerateSelectArray ["posts"] "posts"
        (some [{ name := "author", card := Cardinality.one,
                 referencedTable := usersTable },
               { name := "comments", card := Cardinality.many,
                 referencedTable := postsTable }])).map
        (fun cs => cs.relationArgs) =
      .ok (some (pgRelationArgsFields
        [{ name := "author", card := Cardinality.one,
           referencedTable := usersTable },
         { name := "comments", card := Cardinality.many,
           referencedTable := postsTable }])) ∧
    (pgGenerateSelectSingle ["posts"] "posts"
        (some [{ name := "author", card := Cardinality.one,
                 referencedTable := usersTable },
               { name := "comments", card := Cardinality.many,
                 referencedTable := postsTable }])).map
        (fun cs => cs.relationArgs) =
      .ok (some (pgRelationArgsFields
        [{ name := "author", card := Cardinality.one,
           referencedTable := usersTable },
         { name := "comments", card := Cardinality.many,
           referencedTable := postsTable }])) ∧
    (pgRelationArgsFields
        [{ name := "author", card := Cardinality.one,
           referencedTable := usersTable },
         { name := "comments", card := Cardinality.many,
           referencedTable := postsTable }]).map (fun p => p.1) =
      ([{ name := "author", card := Cardinality.one,
          referencedTable := usersTable },
        { name := "comments", card := Cardinality.many,
          referencedTable := postsTable }] : List RelationDef).map
        (fun r => r.name) ∧
    (∀ r ∈ ([{ name := "author", card := Cardinality.one,
               referencedTable := usersTable },
             { name := "comments", card := Cardinality.many,
               referencedTable := postsTable }] : List RelationDef),
      ∃ fs, (r.name, fs) ∈ pgRelationArgsFields
          [{ name := "author", card := Cardinality.one,
             referencedTable := usersTable },
           { name := "comments", card := Cardinality.many,
             referencedTable := postsTable }] ∧
        "where" ∈ fs ∧ "orderBy" ∈ fs ∧ "offset" ∈ fs ∧
        (("limit" ∈ fs) ↔ r.card = Cardinality.many) ∧
        (∀ f ∈ fs, f = "where" ∨ f = "orderBy" ∨ f = "offset" ∨ f = "limit")) :=
  C8_relation_args_restricted ["posts"] "posts"
    [{ name := "author", card := Cardinality.one, referencedTable := usersTable },
     { name := "comments", card := Cardinality.many, referencedTable := postsTable }]
    (by decide)

end DG
